import Mathlib

/-!
Verification of the JSON-schema transformation engine and model-profile
merging of `pydantic_ai` (files `profiles/_json_schema.py`, `profiles/google.py`,
`profiles/openai.py`, `profiles/__init__.py`).

The Python dictionaries are embedded as insertion-ordered association lists
(`JObj`), mirroring Python `dict` semantics: assignment to an existing key
updates it in place keeping its position, assignment to a new key appends it,
`pop` removes it.  Python `==` on dicts (order-insensitive) is embedded as
`jeq`.  The recursive walk is embedded with a fuel parameter, so every
function is total and executable; all theorems are stated at fuel values
large enough that the fuel never runs out on the inputs involved.
-/

namespace PydanticAI

/-- A JSON value, as stored in the Python `JsonSchema = dict[str, Any]`
documents handled by `JsonSchemaTransformer`.  Numbers are integers (no claim
involves non-integral numbers). -/
inductive JVal where
  | null
  | bool (b : Bool)
  | num (n : Int)
  | str (s : String)
  | arr (elems : List JVal)
  | obj (fields : List (String × JVal))

/-- A JSON object body: insertion-ordered key/value pairs, as a Python dict. -/
abbrev JObj := List (String × JVal)

namespace JVal

/-- Embeds `d.get(k)`: first value bound to `k`. -/
def lookupF (fs : JObj) (k : String) : Option JVal :=
  match fs with
  | [] => none
  | (k', v) :: rest => if k' = k then some v else lookupF rest k

/-- Embeds `d[k] = v`: update the existing binding in place, else append. -/
def setF (fs : JObj) (k : String) (v : JVal) : JObj :=
  match fs with
  | [] => [(k, v)]
  | (k', v') :: rest => if k' = k then (k', v) :: rest else (k', v') :: setF rest k v

/-- Embeds `d.pop(k, None)`: remove the binding for `k` if present. -/
def popF (fs : JObj) (k : String) : JObj :=
  match fs with
  | [] => []
  | (k', v') :: rest => if k' = k then rest else (k', v') :: popF rest k

/-- Embeds `d.setdefault(k, v)`: insert `v` only when `k` is absent. -/
def setdefaultF (fs : JObj) (k : String) (v : JVal) : JObj :=
  match lookupF fs k with
  | some _ => fs
  | none => fs ++ [(k, v)]

/-- Python truthiness of a JSON value (`if x:`). -/
def jtruthy : JVal → Bool
  | .null => false
  | .bool b => b
  | .num n => n != 0
  | .str s => s != ""
  | .arr xs => !xs.isEmpty
  | .obj fs => !fs.isEmpty

mutual

/-- Python `==` between JSON values: dictionaries compare order-insensitively
(same size and every key of the left side bound to an equal value on the
right; our documents have distinct keys, for which this is exactly Python
dict equality).  Python's numeric cross-type equalities (`True == 1`) are not
modelled; no document below mixes booleans and numbers. -/
def jeq : JVal → JVal → Bool
  | .null, .null => true
  | .bool a, .bool b => a == b
  | .num a, .num b => a == b
  | .str a, .str b => a == b
  | .arr xs, .arr ys => jeqList xs ys
  | .obj fs, .obj gs => fs.length == gs.length && jeqFields fs gs
  | _, _ => false

/-- Pointwise Python `==` on lists. -/
def jeqList : List JVal → List JVal → Bool
  | [], [] => true
  | x :: xs, y :: ys => jeq x y && jeqList xs ys
  | _, _ => false

/-- Every binding of the first object is matched by an equal binding in the second. -/
def jeqFields : List (String × JVal) → JObj → Bool
  | [], _ => true
  | (k, v) :: rest, gs =>
    (match lookupF gs k with
     | some w => jeq v w
     | none => false) && jeqFields rest gs

end

/-- The single-quote character used by Python `repr` on strings. -/
def sq : String := String.singleton (Char.ofNat 39)

mutual

/-- Python `str()` of a JSON value (used by `GoogleJsonSchemaTransformer` to
stringify enum members, google.py line 70, and by f-string interpolation). -/
def pyStr : JVal → String
  | .null => "None"
  | .bool true => "True"
  | .bool false => "False"
  | .num n => toString n
  | .str s => s
  | .arr xs => "[" ++ pyReprList xs ++ "]"
  | .obj fs => "\x7b" ++ pyReprFields fs ++ "\x7d"

/-- Python `repr()` of a JSON value (string escaping inside `repr` is not
modelled; no claim exercises it). -/
def pyRepr : JVal → String
  | .null => "None"
  | .bool true => "True"
  | .bool false => "False"
  | .num n => toString n
  | .str s => sq ++ s ++ sq
  | .arr xs => "[" ++ pyReprList xs ++ "]"
  | .obj fs => "\x7b" ++ pyReprFields fs ++ "\x7d"

/-- Embeds `", ".join(repr(x) for x in xs)`. -/
def pyReprList : List JVal → String
  | [] => ""
  | [x] => pyRepr x
  | x :: xs => pyRepr x ++ ", " ++ pyReprList xs

/-- The member rendering of a Python dict repr. -/
def pyReprFields : List (String × JVal) → String
  | [] => ""
  | [(k, v)] => sq ++ k ++ sq ++ ": " ++ pyRepr v
  | (k, v) :: fs => sq ++ k ++ sq ++ ": " ++ pyRepr v ++ ", " ++ pyReprFields fs

end

end JVal

open JVal

/-- Whether a JSON value is hashable as a Python object: scalars are,
lists and dicts are not. -/
def isHashable : JVal → Bool
  | .arr _ => false
  | .obj _ => false
  | _ => true

/-- Insert a pair into a key-sorted association list (`sorted` comparison on
the key, the first tuple component; our dicts never repeat a key, so the
value component is never compared, exactly as in Python's `sorted`). -/
def insertByKey (p : String × JVal) : JObj → JObj
  | [] => [p]
  | q :: rest => if p.1 < q.1 then p :: q :: rest else q :: insertByKey p rest

/-- Embeds `sorted(d.items())`. -/
def sortF (fs : JObj) : JObj := fs.foldr insertByKey []

/-- The key under which `GoogleJsonSchemaTransformer._item_hashable`
(google.py lines 117-129) files a candidate item in the `seen` set. -/
inductive HKey where
  | sortedPairs (fs : JObj)
  | prim (v : JVal)
  | ident (i : Nat)

/-- Equality of `seen`-set keys: Python `==` on the values returned by
`_item_hashable`.  `ident` keys model `id(item)`; distinct positions in the
deep-copied document are distinct objects, so they compare by index. -/
def hkeyEq : HKey → HKey → Bool
  | .sortedPairs a, .sortedPairs b =>
    a.length == b.length && (a.zip b).all (fun pq => pq.1.1 == pq.2.1 && jeq pq.1.2 pq.2.2)
  | .prim a, .prim b => jeq a b
  | .ident i, .ident j => i == j
  | _, _ => false

/-- The errors the transformation engine can surface: `UserError` raises
(exceptions.py), `TypeError` from hashing an unhashable `_item_hashable`
encoding, and exhaustion of the explicit fuel of the embedding. -/
inductive TErr where
  | userError (msg : String)
  | typeError
  | outOfFuel

/-- Embeds `_item_hashable(item)` combined with the hash performed when the result
is put into / looked up in the `seen` set (google.py lines 98-105, 117-129):
a dict becomes `tuple(sorted(item.items()))`, whose hash raises `TypeError`
as soon as one of its values is itself a list or dict; a non-dict unhashable
(a list) falls back to `id(item)`, modelled as an identity key unique to the
item's position `idx`; scalars hash as their own value. -/
def itemKeyE (idx : Nat) (v : JVal) : Except TErr HKey :=
  match v with
  | .obj fs =>
    if fs.all (fun p => isHashable p.2) then .ok (.sortedPairs (sortF fs))
    else .error .typeError
  | .arr _ => .ok (.ident idx)
  | _ => .ok (.prim v)

/-- The `seen`/`unique_items` deduplication loop of
`GoogleJsonSchemaTransformer.transform` (google.py lines 101-105):
first-seen-wins, order-preserving in `acc`. -/
def dedupItems (seen : List HKey) (acc : List JVal) (idx : Nat) :
    List JVal → Except TErr (List JVal)
  | [] => .ok acc
  | x :: xs =>
    match itemKeyE idx x with
    | .error e => .error e
    | .ok k =>
      if seen.any (fun k' => hkeyEq k' k) then dedupItems seen acc (idx + 1) xs
      else dedupItems (seen ++ [k]) (acc ++ [x]) (idx + 1) xs

/-- Embeds `GoogleJsonSchemaTransformer.transform` (google.py lines 34-115).
Operations on the node are embedded in source order; `warns` accumulates the
`warnings.warn` emissions as the node-local `original_schema` dict that the
warning message displays (line 38: the popped schema with
`additionalProperties` re-attached).  The two `raise`/`TypeError` paths
surface as `.error`.  A non-dict argument would raise `AttributeError` in
Python and is returned unchanged here; no walk below reaches that case. -/
def googleTransform (warns : List JObj) (schema : JVal) : List JObj × Except TErr JVal :=
  match schema with
  | .obj fs0 =>
    -- line 36: additional_properties = schema.pop('additionalProperties', None)
    let ap := lookupF fs0 "additionalProperties"
    let fs1 := popF fs0 "additionalProperties"
    -- lines 37-47: warn iff the popped value is truthy
    let warns1 :=
      match ap with
      | some v => if jtruthy v then warns ++ [fs1 ++ [("additionalProperties", v)]] else warns
      | none => warns
    -- lines 49-60: batch pop of irrelevant fields
    let fs2 := ["title", "default", "$schema", "discriminator", "examples",
                "exclusiveMaximum", "exclusiveMinimum"].foldl popF fs1
    -- lines 62-64: const becomes a singleton enum when not None
    let constV := lookupF fs2 "const"
    let fs3 := popF fs2 "const"
    let fs4 :=
      match constV with
      | none => fs3
      | some .null => fs3
      | some v => setF fs3 "enum" (.arr [v])
    -- lines 66-70: stringify enum members and force type string
    -- (a truthy non-list enum value, over which Python would iterate, is not modelled)
    let fs5 :=
      match lookupF fs4 "enum" with
      | some (.arr vs) =>
        if vs.isEmpty then fs4
        else setF (setF fs4 "type" (.str "string")) "enum" (.arr (vs.map (fun v => .str (pyStr v))))
      | _ => fs4
    -- line 72: type_ = schema.get('type'), read after the enum handling
    let type0 := lookupF fs5 "type"
    -- lines 73-77: oneOf becomes anyOf when no type is present
    let fs6 :=
      match lookupF fs5 "oneOf", type0 with
      | some ov, none => setF (popF fs5 "oneOf") "anyOf" ov
      | _, _ => fs5
    -- lines 79-86: strings lose their format, preserved in the description
    let fs7 :=
      match type0 with
      | some (.str "string") =>
        let fmt := lookupF fs6 "format"
        let fsA := popF fs6 "format"
        match fmt with
        | some fv =>
          if jtruthy fv then
            match lookupF fsA "description" with
            | some dv =>
              if jtruthy dv then
                setF fsA "description" (.str (pyStr dv ++ " (format: " ++ pyStr fv ++ ")"))
              else setF fsA "description" (.str ("Format: " ++ pyStr fv))
            | none => setF fsA "description" (.str ("Format: " ++ pyStr fv))
          else fsA
        | none => fsA
      | _ => fs6
    -- lines 88-89: a surviving $ref is rejected
    match lookupF fs7 "$ref" with
    | some rv =>
      (warns1, .error (.userError
        ("Recursive `$ref`s in JSON Schema are not supported by Gemini: " ++ pyStr rv)))
    | none =>
      -- lines 91-113: prefixItems collapse into items
      match lookupF fs7 "prefixItems" with
      | none => (warns1, .ok (.obj fs7))
      | some piV =>
        let fs8 := popF fs7 "prefixItems"
        let pi := match piV with | .arr xs => xs | _ => []
        -- `schema.get('items')` yields Python None both for an absent key and
        -- for a JSON-null value; the `is not None` tests treat them alike
        let items := match lookupF fs8 "items" with
          | some .null => none
          | o => o
        -- lines 97-100: the existing items schema seeds unique_items and seen
        let start : Except TErr (List HKey × List JVal) :=
          match items with
          | some iv =>
            match itemKeyE 0 iv with
            | .error e => .error e
            | .ok k => .ok ([k], [iv])
          | none => .ok ([], [])
        match start with
        | .error e => (warns1, .error e)
        | .ok (seen0, uniq0) =>
          match dedupItems seen0 uniq0 1 pi with
          | .error e => (warns1, .error e)
          | .ok uniq =>
            -- lines 107-113
            let fs9 :=
              match uniq with
              | [] => fs8
              | [u] => setF fs8 "items" u
              | _ => setF fs8 "items" (.obj [("anyOf", .arr uniq)])
            let fs10 := setdefaultF fs9 "minItems" (.num pi.length)
            let fs11 :=
              if items.isNone then setdefaultF fs10 "maxItems" (.num pi.length) else fs10
            (warns1, .ok (.obj fs11))
  | v => (warns, .ok v)

/-- Embeds `_STRICT_INCOMPATIBLE_KEYS` (openai.py lines 38-58). -/
def strictIncompatKeys : List String :=
  ["minLength", "maxLength", "pattern", "format", "minimum", "maximum", "multipleOf",
   "patternProperties", "unevaluatedProperties", "propertyNames", "minProperties",
   "maxProperties", "unevaluatedItems", "contains", "minContains", "maxContains",
   "minItems", "maxItems", "uniqueItems"]

/-- Embeds `OpenAIJsonSchemaTransformer.transform` (openai.py lines 92-167).
`strict` is the transformer's `strict` flag, `rootRef` its `root_ref`
(openai.py line 75), `compat` the incoming `is_strict_compatible`; the
returned pair is the updated flag and the transformed node.  The incompatible
keys are collected in the node's own key order (Python iterates an
unordered set there; only which keys are collected, not their order, is
observable in the claims below).  A non-dict argument is returned unchanged
(Python would raise `AttributeError`; never reached below). -/
def openaiTransform (strict : Option Bool) (rootRef : Option String) (compat : Bool)
    (schema : JVal) : Bool × JVal :=
  match schema with
  | .obj fs0 =>
    -- lines 94-95: quick pops
    let fs1 := ["title", "$schema", "discriminator"].foldl popF fs0
    -- lines 97-103: presence-sensitive default handling
    let hasDefault := (lookupF fs1 "default").isSome
    let fs2 := if hasDefault && strict == some true then popF fs1 "default" else fs1
    let compat1 := if hasDefault && strict == none then false else compat
    -- lines 105-112: $ref rewriting (`schema.get('$ref')` is None, and the
    -- branch is skipped, both for an absent key and for a JSON-null value)
    let fs3 :=
      match lookupF fs2 "$ref" with
      | none => fs2
      | some .null => fs2
      | some rv =>
        let isRoot := match rv, rootRef with
          | .str s, some rr => s == rr
          | _, _ => false
        let fsA := if isRoot then setF fs2 "$ref" (.str "#") else fs2
        if fsA.length > 1 then
          match lookupF fsA "$ref" with
          | some rv2 => setF (popF fsA "$ref") "anyOf" (.arr [.obj [("$ref", rv2)]])
          | none => fsA
        else fsA
    -- lines 114-135: strict-incompatible keys
    let present := fs3.filter (fun p => strictIncompatKeys.contains p.1)
    let (fs4, compat2) :=
      if present.isEmpty then (fs3, compat1)
      else
        match strict with
        | some true =>
          let notes := ", ".intercalate (present.map (fun p => p.1 ++ "=" ++ pyStr p.2))
          let fsB := present.foldl (fun fs p => popF fs p.1) fs3
          let fsC :=
            match lookupF fs3 "description" with
            | some dv =>
              if jtruthy dv then setF fsB "description" (.str (pyStr dv ++ " (" ++ notes ++ ")"))
              else setF fsB "description" (.str notes)
            | none => setF fsB "description" (.str notes)
          (fsC, compat1)
        | none => (fs3, false)
        | some false => (fs3, compat1)
    -- lines 137-142: oneOf
    let (fs5, compat3) :=
      match lookupF fs4 "oneOf" with
      | some ov =>
        match strict with
        | some true => (setF (popF fs4 "oneOf") "anyOf" ov, compat2)
        | _ => (fs4, false)
      | none => (fs4, compat2)
    -- lines 144-166: object nodes
    let (fs6, compat4) :=
      match lookupF fs5 "type" with
      | some (.str "object") =>
        match strict with
        | some true =>
          let fsB := setF fs5 "additionalProperties" (.bool false)
          let fsC := if (lookupF fsB "properties").isNone then setF fsB "properties" (.obj []) else fsB
          let props := match lookupF fsC "properties" with | some (.obj ps) => ps | _ => []
          (setF fsC "required" (.arr (props.map (fun p => JVal.str p.1))), compat3)
        | none =>
          let apOk := match lookupF fs5 "additionalProperties" with
            | some (.bool false) => true
            | _ => false
          if !apOk || (lookupF fs5 "properties").isNone || (lookupF fs5 "required").isNone then
            (fs5, false)
          else
            let ps := match lookupF fs5 "properties" with | some (.obj ps) => ps | _ => []
            let rs := match lookupF fs5 "required" with | some (.arr rs) => rs | _ => []
            if ps.all (fun p => rs.any (fun r => jeq r (.str p.1))) then (fs5, compat3)
            else (fs5, false)
        | some false => (fs5, compat3)
      | _ => (fs5, compat3)
    (compat4, .obj fs6)
  | v => (compat, v)

/-- Which concrete `transform` method the engine dispatches to. -/
inductive TKind where
  | google
  | openai
  | inlineDefs

/-- The constructor-time configuration of a `JsonSchemaTransformer`
(profiles/_json_schema.py lines 22-39; `root_ref` from openai.py line 75). -/
structure Cfg where
  kind : TKind
  strict : Option Bool
  preferInlinedDefs : Bool
  simplifyNullableUnions : Bool
  rootRef : Option String

/-- The transformer's mutable attributes during a walk.  `defs` models
`self.defs`, which aliases the *caller's* `$defs` entries
(profiles/_json_schema.py line 37 reads them from the original, un-copied
schema); updates to it model the in-place mutation those original dict
objects undergo while being handled. -/
structure WState where
  refsStack : List String
  recursiveRefs : List String
  defs : JObj
  strictCompatible : Bool
  warnings : List JObj

/-- Dispatch of line 108 `schema = self.transform(schema)`. -/
def applyTransform (cfg : Cfg) (st : WState) (schema : JVal) : WState × Except TErr JVal :=
  match cfg.kind with
  | .google =>
    let (w, r) := googleTransform st.warnings schema
    ({st with warnings := w}, r)
  | .openai =>
    let (c, v) := openaiTransform cfg.strict cfg.rootRef st.strictCompatible schema
    ({st with strictCompatible := c}, .ok v)
  | .inlineDefs => (st, .ok schema)

/-- Key extraction from a `$ref` (profiles/_json_schema.py lines 80-85: the
prefix slice, with the regex fallback that leaves a prefix-less ref
unchanged). -/
def parseRefKey (ref : String) : String :=
  if ref.data.take 8 = "#/$defs/".data then String.mk (ref.data.drop 8) else ref

/-- The `while ref is not None` resolution loop of `_handle`
(profiles/_json_schema.py lines 76-97): follows `$ref` chains through
`self.defs`, pushing each resolved key on `refs_stack`; a key already on the
stack is recorded in `recursive_refs` and left unexpanded; a key missing
from `$defs` raises `UserError` (with the key already pushed, as in the
source).  Returns the resolved schema and the list of pushed keys
(`nested_refs` is its length). -/
def resolveChain (fuel : Nat) (st : WState) (schema : JVal) (pushed : List String) :
    WState × Except TErr (JVal × List String) :=
  match fuel with
  | 0 => (st, .error .outOfFuel)
  | fuel + 1 =>
    match schema with
    | .obj fs =>
      match lookupF fs "$ref" with
      | some (.str ref) =>
        let key := parseRefKey ref
        if st.refsStack.contains key then
          let rr := if st.recursiveRefs.contains key then st.recursiveRefs
                    else st.recursiveRefs ++ [key]
          ({st with recursiveRefs := rr}, .ok (schema, pushed))
        else
          let st1 := {st with refsStack := st.refsStack ++ [key]}
          match lookupF st1.defs key with
          | none => (st1, .error (.userError ("Could not find $ref definition for " ++ key)))
          | some d => resolveChain fuel st1 d (pushed ++ [key])
      | _ => (st, .ok (schema, pushed))
    | _ => (st, .ok (schema, pushed))

/-- The schema `{'type': 'null'}` tested by `_simplify_nullable_union`. -/
def nullSchema : JVal := .obj [("type", .str "null")]

/-- Embeds `JsonSchemaTransformer._simplify_nullable_union` (profiles/_json_schema.py
lines 204-222): a two-member union containing `{'type': 'null'}` collapses to
its first non-null member marked `nullable: True` (a deep copy in Python;
value semantics here); with no truthy non-null member, the first case is
kept.  A non-dict non-null member would raise on the `nullable` assignment
in Python; it is returned unchanged here and never reached below. -/
def simplifyNullableUnion (cases : List JVal) : List JVal :=
  if cases.length == 2 && cases.any (fun c => jeq c nullSchema) then
    match cases.find? (fun c => !jeq c nullSchema) with
    | some m =>
      if jtruthy m then
        match m with
        | .obj mfs => [.obj (setF mfs "nullable" (.bool true))]
        | v => [v]
      else [cases.headD .null]
    | none => [cases.headD .null]
  else cases

/-- The type of the recursive `_handle` call threaded through the
structural handlers below. -/
abbrev HandleFn := WState → JVal → WState × Except TErr JVal

/-- Embeds `_handle` applied to each value of a dict, in order
(the `properties` / `patternProperties` / `$defs` comprehensions). -/
def handleVals (f : HandleFn) (st : WState) : JObj → WState × Except TErr JObj
  | [] => (st, .ok [])
  | (k, v) :: rest =>
    match f st v with
    | (st1, .error e) => (st1, .error e)
    | (st1, .ok v') =>
      match handleVals f st1 rest with
      | (st2, .error e) => (st2, .error e)
      | (st2, .ok rest') => (st2, .ok ((k, v') :: rest'))

/-- Embeds `_handle` applied to each member of a list, in order
(`prefixItems` and union member lists). -/
def handleList (f : HandleFn) (st : WState) : List JVal → WState × Except TErr (List JVal)
  | [] => (st, .ok [])
  | x :: xs =>
    match f st x with
    | (st1, .error e) => (st1, .error e)
    | (st1, .ok x') =>
      match handleList f st1 xs with
      | (st2, .error e) => (st2, .error e)
      | (st2, .ok xs') => (st2, .ok (x' :: xs'))

/-- Embeds `JsonSchemaTransformer._handle_object` (profiles/_json_schema.py lines
115-150): handle truthy `properties` values, a non-bool non-null
`additionalProperties`, and `patternProperties` values.  The source's
copy-on-change bookkeeping only avoids re-assigning unchanged dicts; the
resulting value is the plain map embedded here. -/
def handleObject (f : HandleFn) (st : WState) (fs : JObj) : WState × Except TErr JVal :=
  let step1 : WState × Except TErr JObj :=
    match lookupF fs "properties" with
    | some (.obj ps) =>
      if ps.isEmpty then (st, .ok fs)
      else
        match handleVals f st ps with
        | (st1, .error e) => (st1, .error e)
        | (st1, .ok ps') => (st1, .ok (setF fs "properties" (.obj ps')))
    | _ => (st, .ok fs)
  match step1 with
  | (st1, .error e) => (st1, .error e)
  | (st1, .ok fs1) =>
    let step2 : WState × Except TErr JObj :=
      match lookupF fs1 "additionalProperties" with
      | some (.bool _) => (st1, .ok fs1)
      | some .null => (st1, .ok fs1)
      | some v =>
        match f st1 v with
        | (st2, .error e) => (st2, .error e)
        | (st2, .ok v') => (st2, .ok (setF fs1 "additionalProperties" v'))
      | none => (st1, .ok fs1)
    match step2 with
    | (st2, .error e) => (st2, .error e)
    | (st2, .ok fs2) =>
      match lookupF fs2 "patternProperties" with
      | some (.obj pps) =>
        match handleVals f st2 pps with
        | (st3, .error e) => (st3, .error e)
        | (st3, .ok pps') => (st3, .ok (.obj (setF fs2 "patternProperties" (.obj pps'))))
      | _ => (st2, .ok (.obj fs2))

/-- Embeds `JsonSchemaTransformer._handle_array` (profiles/_json_schema.py lines
152-171): handle truthy `prefixItems` members, then a truthy `items`. -/
def handleArray (f : HandleFn) (st : WState) (fs : JObj) : WState × Except TErr JVal :=
  let step1 : WState × Except TErr JObj :=
    match lookupF fs "prefixItems" with
    | some (.arr xs) =>
      if xs.isEmpty then (st, .ok fs)
      else
        match handleList f st xs with
        | (st1, .error e) => (st1, .error e)
        | (st1, .ok xs') => (st1, .ok (setF fs "prefixItems" (.arr xs')))
    | _ => (st, .ok fs)
  match step1 with
  | (st1, .error e) => (st1, .error e)
  | (st1, .ok fs1) =>
    match lookupF fs1 "items" with
    | some iv =>
      if jtruthy iv then
        match f st1 iv with
        | (st2, .error e) => (st2, .error e)
        | (st2, .ok iv') => (st2, .ok (.obj (setF fs1 "items" iv')))
      else (st1, .ok (.obj fs1))
    | none => (st1, .ok (.obj fs1))

/-- Embeds `JsonSchemaTransformer._handle_union` (profiles/_json_schema.py lines
173-202): handle each member of a truthy `anyOf`/`oneOf` list, optionally
simplify nullable unions, collapse a one-member result to the member
itself, else re-assign the member list. -/
def handleUnion (cfg : Cfg) (f : HandleFn) (st : WState) (schema : JVal) (kind : String) :
    WState × Except TErr JVal :=
  match schema with
  | .obj fs =>
    match lookupF fs kind with
    | some (.arr members) =>
      if members.isEmpty then (st, .ok schema)
      else
        match handleList f st members with
        | (st1, .error e) => (st1, .error e)
        | (st1, .ok handled) =>
          let finalHandled :=
            if cfg.simplifyNullableUnions then simplifyNullableUnion handled else handled
          match finalHandled with
          | [one] => (st1, .ok one)
          | _ => (st1, .ok (.obj (setF fs kind (.arr finalHandled))))
    | _ => (st, .ok schema)
  | v => (st, .ok v)

/-- Embeds `JsonSchemaTransformer._handle` (profiles/_json_schema.py lines 74-113):
resolve `$ref` chains when `prefer_inlined_defs`, dispatch on `type`, apply
the transform, then restore `refs_stack` (line 111; skipped when an
exception propagates, as in the source).  When at least one def was
resolved, the node being handled *is* the aliased `self.defs` entry of the
last resolved key, and every handler and transform operates on it in place,
so its final contents are the handled result: the `defs` state is updated
accordingly.  (The one Python path on which `_handle`'s return value is a
different object from its argument — a type-less union that collapses or is
copied, lines 194-199 — would leave the original def only partially
mutated; no def handled in the theorems below is such a union.)  Recursion
into children is structural on the explicit `fuel`. -/
def handle (cfg : Cfg) : Nat → HandleFn
  | 0, st, _ => (st, .error .outOfFuel)
  | fuel + 1, st, schema =>
    let f : HandleFn := handle cfg fuel
    let (st1, res) :=
      if cfg.preferInlinedDefs then resolveChain (fuel + 1) st schema []
      else (st, .ok (schema, []))
    match res with
    | .error e => (st1, .error e)
    | .ok (schema1, pushed) =>
      -- lines 99-106: `schema.get('type')` is None both for an absent key and
      -- for a JSON-null value; both take the union branch
      let unions (fs : JObj) : WState × Except TErr JVal :=
        match handleUnion cfg f st1 (.obj fs) "anyOf" with
        | (stU, .error e) => (stU, .error e)
        | (stU, .ok sU) => handleUnion cfg f stU sU "oneOf"
      let (st2, res2) :=
        match schema1 with
        | .obj fs =>
          match lookupF fs "type" with
          | some (.str "object") => handleObject f st1 fs
          | some (.str "array") => handleArray f st1 fs
          | some .null => unions fs
          | some _ => (st1, .ok (.obj fs))
          | none => unions fs
        | v => (st1, .ok v)
      match res2 with
      | .error e => (st2, .error e)
      | .ok schema2 =>
        match applyTransform cfg st2 schema2 with
        | (st3, .error e) => (st3, .error e)
        | (st3, .ok out) =>
          let st4 := {st3 with refsStack := st3.refsStack.take (st3.refsStack.length - pushed.length)}
          let st5 :=
            match pushed.getLast? with
            | some k => {st4 with defs := setF st4.defs k out}
            | none => st4
          (st5, .ok out)

/-- The fields of the root document (`self.schema`). -/
def rootFields : JVal → JObj
  | .obj fs => fs
  | _ => []

/-- Assignment `d[k] = v` at the `JVal` level (no-op on non-dicts). -/
def jsetV (v : JVal) (k : String) (w : JVal) : JVal :=
  match v with
  | .obj fs => .obj (setF fs k w)
  | x => x

/-- The `while root_key in defs: root_key = f'{root_key}_root'` loop of
`walk` (profiles/_json_schema.py lines 65-67), fueled by more iterations
than `defs` has keys. -/
def freshRootKey : Nat → String → JObj → String
  | 0, k, _ => k
  | n + 1, k, ds => if (lookupF ds k).isSome then freshRootKey n (k ++ "_root") ds else k

/-- Embeds `JsonSchemaTransformer.walk` (profiles/_json_schema.py lines 46-72).
The walk deep-copies the root (value semantics: the copy is the value
itself) and pops `$defs` from the copy, but `self.defs` was read from the
*original* schema at construction time (line 37), so the `$defs` entries
handled on lines 54 and 93-96 are the caller's own dict objects; the final
`defs` component of the returned state is their post-walk contents. -/
def walkCore (cfg : Cfg) (fuel : Nat) (schema : JVal) : WState × Except TErr JVal :=
  let st0 : WState :=
    { refsStack := []
      recursiveRefs := []
      defs := match lookupF (rootFields schema) "$defs" with
              | some (.obj ds) => ds
              | _ => []
      strictCompatible := true
      warnings := [] }
  let copy : JVal :=
    match schema with
    | .obj fs => .obj (popF fs "$defs")
    | v => v
  match handle cfg fuel st0 copy with
  | (st1, .error e) => (st1, .error e)
  | (st1, .ok handled) =>
    if !cfg.preferInlinedDefs && !st1.defs.isEmpty then
      -- lines 53-54: each (aliased, original) def is handled in place
      match handleVals (handle cfg fuel) st1 st1.defs with
      | (st2, .error e) => (st2, .error e)
      | (st2, .ok ds) => ({st2 with defs := ds}, .ok (jsetV handled "$defs" (.obj ds)))
    else if cfg.preferInlinedDefs && !st1.recursiveRefs.isEmpty then
      -- lines 56-70: recursive refs force a $defs/$ref wrapper
      let ds := st1.recursiveRefs.map (fun k => (k, (lookupF st1.defs k).getD .null))
      let rootKey :=
        match lookupF (rootFields schema) "$ref" with
        | some (.str r) => parseRefKey r
        | _ =>
          let t := match lookupF (rootFields schema) "title" with
                   | some (.str s) => s
                   | _ => "root"
          freshRootKey (ds.length + 1) t ds
      (st1, .ok (.obj [("$defs", .obj (setF ds rootKey handled)),
                       ("$ref", .str ("#/$defs/" ++ rootKey))]))
    else (st1, .ok handled)

/-- The configuration `GoogleJsonSchemaTransformer.__init__` passes to the
base class (google.py lines 31-32). -/
def googleCfg (strict : Option Bool) : Cfg :=
  { kind := .google, strict := strict, preferInlinedDefs := true,
    simplifyNullableUnions := true, rootRef := none }

/-- Embeds `GoogleJsonSchemaTransformer(schema, strict=strict).walk()`. -/
def googleWalk (fuel : Nat) (strict : Option Bool) (schema : JVal) :
    WState × Except TErr JVal :=
  walkCore (googleCfg strict) fuel schema

/-- The configuration of `OpenAIJsonSchemaTransformer` (openai.py lines
73-75): base defaults plus `root_ref = schema.get('$ref')`. -/
def openaiCfg (schema : JVal) (strict : Option Bool) : Cfg :=
  { kind := .openai, strict := strict, preferInlinedDefs := false,
    simplifyNullableUnions := false,
    rootRef := match lookupF (rootFields schema) "$ref" with
               | some (.str r) => some r
               | _ => none }

/-- Embeds `OpenAIJsonSchemaTransformer(schema, strict=strict).walk()` (openai.py
lines 77-90): the base walk, then for a root `$ref` the reference is popped
and the (current, possibly walk-mutated) root def's fields are merged in. -/
def openaiWalk (fuel : Nat) (strict : Option Bool) (schema : JVal) :
    WState × Except TErr JVal :=
  let cfg := openaiCfg schema strict
  match walkCore cfg fuel schema with
  | (st, .error e) => (st, .error e)
  | (st, .ok result) =>
    match cfg.rootRef with
    | none => (st, .ok result)
    | some rr =>
      let r1 : JVal := match result with | .obj fs => .obj (popF fs "$ref") | v => v
      let rootKey := parseRefKey rr
      let merge : JObj := match lookupF st.defs rootKey with
        | some (.obj ms) => ms
        | _ => []
      (st, .ok (match r1 with
                | .obj fs => .obj (merge.foldl (fun acc p => setF acc p.1 p.2) fs)
                | v => v))

/-! ## `ModelProfile` and `ModelProfile.update` (profiles/__init__.py)

The dataclass reflection that `update` relies on (`dataclasses.fields(self)`,
`getattr`, `dataclasses.replace`) is embedded explicitly: a profile value
carries its concrete class (`ModelProfile` or its subclass
`OpenAIModelProfile`, openai.py lines 10-21), `fieldsOf` returns the field
descriptors of that concrete class, `getattrF` fails (`AttributeError`) on a
field the value's class does not declare, and `fieldDefault` is the declared
default of each field (identical in base and subclass, which overrides no
inherited default). -/

/-- A value of the `json_schema_transformer` field: a transformer class
object; classes compare by identity. -/
inductive TransformerId where
  | googleT
  | openaiT
  | inlineDefsT
deriving DecidableEq

/-- The default of `ModelProfile.prompted_output_template`
(profiles/__init__.py lines 25-33, after `dedent`). -/
def promptedOutputTemplateDefault : String :=
  "\nAlways respond with a JSON object that" ++ sq ++ "s compatible with this schema:\n\n{schema}\n\nDon" ++ sq ++ "t include any text or Markdown fencing before or after.\n"

/-- The fields declared on `ModelProfile` (profiles/__init__.py lines 13-36). -/
structure BaseFields where
  supports_tools : Bool := true
  supports_json_schema_output : Bool := false
  supports_json_object_output : Bool := false
  default_structured_output_mode : String := "tool"
  prompted_output_template : String := promptedOutputTemplateDefault
  json_schema_transformer : Option TransformerId := none
deriving DecidableEq

/-- The extra fields declared on `OpenAIModelProfile` (openai.py lines 10-21). -/
structure OpenAIFields where
  openai_supports_strict_tool_definition : Bool := true
  openai_supports_sampling_settings : Bool := true
deriving DecidableEq

/-- A profile instance together with its concrete class. -/
inductive Profile where
  | base (b : BaseFields)
  | openaiP (b : BaseFields) (o : OpenAIFields)
deriving DecidableEq

/-- Field descriptors, as `dataclasses.fields` enumerates them. -/
inductive FieldName where
  | supportsTools
  | supportsJsonSchemaOutput
  | supportsJsonObjectOutput
  | defaultStructuredOutputMode
  | promptedOutputTemplate
  | jsonSchemaTransformer
  | openaiSupportsStrictToolDefinition
  | openaiSupportsSamplingSettings
deriving DecidableEq

/-- A field's value (typed union over the field types occurring here). -/
inductive FieldVal where
  | b (x : Bool)
  | s (x : String)
  | t (x : Option TransformerId)
deriving DecidableEq

/-- Embeds `dataclasses.fields` of `ModelProfile`, in declaration order. -/
def baseFieldNames : List FieldName :=
  [.supportsTools, .supportsJsonSchemaOutput, .supportsJsonObjectOutput,
   .defaultStructuredOutputMode, .promptedOutputTemplate, .jsonSchemaTransformer]

/-- Embeds `dataclasses.fields` of `OpenAIModelProfile`: inherited fields then its own. -/
def openaiFieldNames : List FieldName :=
  baseFieldNames ++ [.openaiSupportsStrictToolDefinition, .openaiSupportsSamplingSettings]

/-- Embeds `dataclasses.fields(self)`: the concrete runtime class's fields. -/
def fieldsOf : Profile → List FieldName
  | .base _ => baseFieldNames
  | .openaiP _ _ => openaiFieldNames

/-- Embeds `f.default`: the declared default of each field. -/
def fieldDefault : FieldName → FieldVal
  | .supportsTools => .b true
  | .supportsJsonSchemaOutput => .b false
  | .supportsJsonObjectOutput => .b false
  | .defaultStructuredOutputMode => .s "tool"
  | .promptedOutputTemplate => .s promptedOutputTemplateDefault
  | .jsonSchemaTransformer => .t none
  | .openaiSupportsStrictToolDefinition => .b true
  | .openaiSupportsSamplingSettings => .b true

/-- Reading a base-declared field from a `BaseFields` record. -/
def baseGet (b : BaseFields) : FieldName → Option FieldVal
  | .supportsTools => some (.b b.supports_tools)
  | .supportsJsonSchemaOutput => some (.b b.supports_json_schema_output)
  | .supportsJsonObjectOutput => some (.b b.supports_json_object_output)
  | .defaultStructuredOutputMode => some (.s b.default_structured_output_mode)
  | .promptedOutputTemplate => some (.s b.prompted_output_template)
  | .jsonSchemaTransformer => some (.t b.json_schema_transformer)
  | _ => none

/-- Reading a subclass-declared field from an `OpenAIFields` record. -/
def openaiGet (o : OpenAIFields) : FieldName → Option FieldVal
  | .openaiSupportsStrictToolDefinition => some (.b o.openai_supports_strict_tool_definition)
  | .openaiSupportsSamplingSettings => some (.b o.openai_supports_sampling_settings)
  | _ => none

/-- Embeds `getattr(profile, f.name)`, `none` on `AttributeError`. -/
def getattrF : Profile → FieldName → Option FieldVal
  | .base b, n => baseGet b n
  | .openaiP b o, n =>
    match baseGet b n with
    | some v => some v
    | none => openaiGet o n

/-- Writing a base-declared field (used by `replace`). -/
def baseSet (b : BaseFields) : FieldName → FieldVal → BaseFields
  | .supportsTools, .b x => {b with supports_tools := x}
  | .supportsJsonSchemaOutput, .b x => {b with supports_json_schema_output := x}
  | .supportsJsonObjectOutput, .b x => {b with supports_json_object_output := x}
  | .defaultStructuredOutputMode, .s x => {b with default_structured_output_mode := x}
  | .promptedOutputTemplate, .s x => {b with prompted_output_template := x}
  | .jsonSchemaTransformer, .t x => {b with json_schema_transformer := x}
  | _, _ => b

/-- Writing a subclass-declared field. -/
def openaiSet (o : OpenAIFields) : FieldName → FieldVal → OpenAIFields
  | .openaiSupportsStrictToolDefinition, .b x => {o with openai_supports_strict_tool_definition := x}
  | .openaiSupportsSamplingSettings, .b x => {o with openai_supports_sampling_settings := x}
  | _, _ => o

/-- One keyword of `dataclasses.replace(self, **non_default_attrs)`: the
result keeps `self`'s concrete class and updates the named field. -/
def setFieldP (p : Profile) (n : FieldName) (v : FieldVal) : Profile :=
  match p with
  | .base b => .base (baseSet b n v)
  | .openaiP b o => .openaiP (baseSet b n v) (openaiSet o n v)

/-- One iteration of the `update` field loop (profiles/__init__.py lines
50-56): read the override's attribute (an `AttributeError` skips the field)
and apply it when it differs from the field's declared default. -/
def updateStep (p : Profile) (acc : Profile) (f : FieldName) : Profile :=
  match getattrF p f with
  | none => acc
  | some v => if v ≠ fieldDefault f then setFieldP acc f v else acc

/-- Embeds `ModelProfile.update` (profiles/__init__.py lines 45-57): a falsy
`profile` argument returns `self`; otherwise the loop over the fields of
*`self`'s* concrete class collects and applies the qualifying overrides.
The fold applies the assignments one by one; the field names are distinct,
so this equals the single `replace` call of the source. -/
def updateProfile (self : Profile) (other : Option Profile) : Profile :=
  match other with
  | none => self
  | some p => (fieldsOf self).foldl (updateStep p) self

/-- The merged value of one field of `update`'s result, in terms of the
base's and the override's attribute values: the override wins exactly when
it carries the field with a non-default value and the base's class declares
the field at all. -/
def mergeVal (bv ov : Option FieldVal) (f : FieldName) : Option FieldVal :=
  match bv, ov with
  | some b, some o => some (if o ≠ fieldDefault f then o else b)
  | some b, none => some b
  | none, _ => none

/-! ## Concrete documents and merge descriptions used by the claims -/

/-- A document whose root is a reference to a titled string definition. -/
def c1Schema (t : String) : JVal :=
  .obj [("$ref", .str "#/$defs/A"),
        ("$defs", .obj [("A", .obj [("type", .str "string"), ("title", .str t)])])]

/-- A document with a self-referential definition: `A`'s `properties.child`
refers back to `A`. -/
def recSchema : JVal :=
  .obj [("$ref", .str "#/$defs/A"),
        ("$defs", .obj [("A", .obj [("type", .str "object"),
          ("properties", .obj [("child", .obj [("$ref", .str "#/$defs/A")])])])])]

/-- A document whose root references a definition name absent from `$defs`. -/
def missingRefSchema (dfs : JObj) : JVal :=
  .obj [("$ref", .str "#/$defs/Missing"), ("$defs", .obj dfs)]

/-- An array node whose first positional item schema carries a list-valued
key (`enum`), making its `_item_hashable` encoding unhashable. -/
def unhashableArraySchema : JVal :=
  .obj [("type", .str "array"),
        ("prefixItems", .arr [.obj [("type", .str "string"), ("enum", .arr [.str "a", .str "b"])],
                              .obj [("type", .str "integer")]])]


/-! ## Claims -/

/-- Claim C1, counterexample: walking the document
`{"$ref": "#/$defs/A", "$defs": {"A": {"type": "string", "title": "A title"}}}`
with the Google policy leaves the caller's `$defs/A` entry equal to
`{"type": "string"}` — the transform stripped its `title` in place — which is
not Python-equal to the original entry, so the caller-supplied schema is
mutated, contradicting the claim that no node reachable from the original
document is mutated. -/
theorem claim_C1_counterexample :
    (googleWalk 8 none (c1Schema "A title")).1.defs = [("A", .obj [("type", .str "string")])]
    ∧ jeq (.obj (googleWalk 8 none (c1Schema "A title")).1.defs)
          (.obj [("A", .obj [("type", .str "string"), ("title", .str "A title")])]) = false :=
  ⟨rfl, rfl⟩

/-- Claim C1 as amended: the engine deep-copies the root document, so nodes
outside `$defs` are never mutated, but `self.defs` aliases the caller's
`$defs` entries and a definition resolved during the walk is handled and
transformed in place: walking
`{"$ref": "#/$defs/A", "$defs": {"A": {"type": "string", "title": "A title"}}}`
with the Google policy ends with the caller's `$defs/A` holding the
transformed node `{"type": "string"}` (its `title` stripped in place by the
transform), and the walk's output is that same transformed node. -/
theorem claim_C1_amended :
    (googleWalk 8 none (c1Schema "A title")).1.defs = [("A", .obj [("type", .str "string")])]
    ∧ (googleWalk 8 none (c1Schema "A title")).2 = .ok (.obj [("type", .str "string")]) :=
  ⟨rfl, rfl⟩

/-- Claim C2, counterexample: the override `OpenAIModelProfile` instance
carries its subtype-declared field `openai_supports_sampling_settings` with
the non-default value `False`, yet `update` on a plain `ModelProfile` base
returns the base completely unchanged — the subtype-only field is *not*
applied, because `update` iterates `fields(self)`, the base's concrete
field set, not the override's. -/
theorem claim_C2_counterexample :
    getattrF (.openaiP {} {openai_supports_sampling_settings := false}) .openaiSupportsSamplingSettings
      = some (.b false)
    ∧ (FieldVal.b false) ≠ fieldDefault .openaiSupportsSamplingSettings
    ∧ updateProfile (.base {}) (some (.openaiP {} {openai_supports_sampling_settings := false}))
      = .base {} :=
  ⟨rfl, by decide, rfl⟩

/-- Claim C2 as amended, helper: writing a field other than `f` leaves
`getattr` at `f` unchanged. -/
theorem getattr_setFieldP_ne (acc : Profile) (x f : FieldName) (v : FieldVal) (h : x ≠ f) :
    getattrF (setFieldP acc x v) f = getattrF acc f := by
  cases acc <;> cases v <;> cases x <;> cases f <;>
    simp_all [setFieldP, baseSet, openaiSet, getattrF, baseGet, openaiGet]

/-- Claim C2 as amended, helper: an `update` iteration on a field other than
`f` leaves `getattr` at `f` unchanged. -/
theorem getattr_updateStep_ne (p acc : Profile) (x f : FieldName) (h : x ≠ f) :
    getattrF (updateStep p acc x) f = getattrF acc f := by
  unfold updateStep
  rcases getattrF p x with _ | v
  · rfl
  · dsimp only
    split_ifs with hv
    · exact getattr_setFieldP_ne acc x f v h
    · rfl

/-- Claim C2 as amended, helper: one `update` iteration on `f` itself
realizes the per-field merge `mergeVal` (in particular, a field the base's
class does not declare stays absent: `setFieldP` cannot create it). -/
theorem getattr_updateStep_same (p acc : Profile) (f : FieldName) :
    getattrF (updateStep p acc f) f = mergeVal (getattrF acc f) (getattrF p f) f := by
  cases acc <;> cases p <;> cases f <;>
    simp only [updateStep, mergeVal, getattrF, baseGet, openaiGet, setFieldP, baseSet,
      openaiSet, fieldDefault] <;>
    (try split_ifs) <;> simp_all

/-- Claim C2 as amended, helper: the per-field merge is idempotent in its
override argument. -/
theorem mergeVal_idem (a o : Option FieldVal) (f : FieldName) :
    mergeVal (mergeVal a o f) o f = mergeVal a o f := by
  rcases a with _ | bv <;> rcases o with _ | ov
  · rfl
  · rfl
  · rfl
  · simp only [mergeVal]
    split_ifs <;> rfl

/-- Claim C2 as amended, helper: the field loop realizes the per-field merge
on every field it visits and touches no other field. -/
theorem getattr_foldl_main (p : Profile) (f : FieldName) :
    ∀ (L : List FieldName) (acc : Profile),
      getattrF (L.foldl (updateStep p) acc) f =
        if f ∈ L then mergeVal (getattrF acc f) (getattrF p f) f
        else getattrF acc f
  | [], acc => by simp
  | x :: L, acc => by
    rw [List.foldl_cons, getattr_foldl_main p f L (updateStep p acc x)]
    by_cases hx : x = f
    · rw [hx, getattr_updateStep_same]
      by_cases hL : f ∈ L
      · simp [hL, mergeVal_idem]
      · simp [hL]
    · have hne : getattrF (updateStep p acc x) f = getattrF acc f :=
        getattr_updateStep_ne p acc x f hx
      by_cases hL : f ∈ L
      · simp [hL, hx, hne]
      · simp [hL, hx, hne, List.mem_cons, Ne.symm hx]

/-- Claim C2 as amended: `ModelProfile.update(base, override)` merges over
the *base's* concrete field set.  With an absent override it returns base
unchanged.  Otherwise, field by field: where base declares the field and the
override also carries it, the result takes the override's value exactly when
that value differs from the field's declared default and keeps base's value
otherwise; a field the override lacks keeps base's value (the
`AttributeError` skip); and a field base's concrete class does not declare —
e.g. one declared only on the override's subtype — is absent from the result
(`mergeVal` with an absent base value yields an absent field), i.e. the
vendor-prefixed flag of the counterexample is dropped, not applied. -/
theorem claim_C2_amended :
    (∀ self : Profile, updateProfile self none = self)
    ∧ (∀ self other f,
        getattrF (updateProfile self (some other)) f =
          mergeVal (getattrF self f) (getattrF other f) f) := by
  refine ⟨fun self => rfl, fun self other f => ?_⟩
  show getattrF ((fieldsOf self).foldl (updateStep other) self) f = _
  rw [getattr_foldl_main]
  cases self <;> cases f <;>
    simp [fieldsOf, baseFieldNames, openaiFieldNames, getattrF, baseGet, openaiGet, mergeVal]

/-- Claim C3: on the self-referential document
`{"$ref": "#/$defs/A", "$defs": {"A": {"type": "object", "properties":
{"child": {"$ref": "#/$defs/A"}}}}}` the walk terminates (both policy runs
return a result within the stated fuel): the inlining engine detects the
cycle via `refs_stack` and records `A` in `recursive_refs`, leaving the
reference unexpanded, whereupon the Google policy raises the
unsupported-feature `UserError` naming the remaining `$ref`, while the
OpenAI policy's output retains a `$defs` entry for `A` together with `$ref`
nodes (rewritten to `#`). -/
theorem claim_C3 :
    (googleWalk 8 none recSchema).2
      = .error (.userError "Recursive `$ref`s in JSON Schema are not supported by Gemini: #/$defs/A")
    ∧ (googleWalk 8 none recSchema).1.recursiveRefs = ["A"]
    ∧ (openaiWalk 8 none recSchema).2
      = .ok (.obj [("$defs", .obj [("A", .obj [("type", .str "object"),
              ("properties", .obj [("child", .obj [("$ref", .str "#")])])])]),
             ("type", .str "object"),
             ("properties", .obj [("child", .obj [("$ref", .str "#")])])]) :=
  ⟨rfl, rfl, rfl⟩

/-- Claim C4: for every properties map `ps`, the OpenAI transform under
forced strict mode maps the node `{"type": "object", "properties": ps}` to
the same node with `additionalProperties: false` and `required` equal to the
list of every key of `ps`, leaving `is_strict_compatible` true; under
auto-detect (strict unset) the same node — which has no
`additionalProperties`/`required` — is returned unmutated and
`is_strict_compatible` ends false. -/
theorem claim_C4 (ps : JObj) :
    openaiTransform (some true) none true (.obj [("type", .str "object"), ("properties", .obj ps)])
      = (true, .obj [("type", .str "object"), ("properties", .obj ps),
                     ("additionalProperties", .bool false),
                     ("required", .arr (ps.map (fun p => JVal.str p.1)))])
    ∧ openaiTransform none none true (.obj [("type", .str "object"), ("properties", .obj ps)])
      = (false, .obj [("type", .str "object"), ("properties", .obj ps)]) :=
  ⟨rfl, rfl⟩

/-- Claim C5: with `prefer_inlined_defs` (Google policy), a root reference
`#/$defs/Missing` that does not resolve against the document's `$defs` —
whether `$defs` holds an unrelated definition or nothing at all — makes the
walk fail immediately with the `UserError` diagnostic naming the missing
key, and no output document is produced. -/
theorem claim_C5 (v : JVal) :
    (googleWalk 8 none (missingRefSchema [("A", v)])).2
      = .error (.userError "Could not find $ref definition for Missing")
    ∧ (googleWalk 8 none (missingRefSchema [])).2
      = .error (.userError "Could not find $ref definition for Missing") :=
  ⟨rfl, rfl⟩

/-- Claim C6, counterexample: on an array node that already carries a
`minItems` (here `0`) together with `prefixItems` of length 1, the Google
transform *keeps* the pre-existing `minItems: 0` (`setdefault`), whereas the
claim says `minItems` is set to the original prefix length (1). -/
theorem claim_C6_counterexample :
    googleTransform [] (.obj [("type", .str "array"),
        ("prefixItems", .arr [.obj [("type", .str "string")]]), ("minItems", .num 0)])
      = ([], .ok (.obj [("type", .str "array"), ("minItems", .num 0),
                        ("items", .obj [("type", .str "string")]), ("maxItems", .num 1)])) :=
  rfl

/-- Claim C6 as amended: the Google transform removes `prefixItems` and
rewrites it into a single `items` schema built from the order-preserving,
first-seen-wins deduplication of the existing generic `items` schema (if
any) and the distinct positional item schemas, wrapped in `anyOf` when more
than one distinct shape remains; `minItems` is set to the original prefix
length and `maxItems` to that same value only when there was no trailing
`items` schema — each only when not already present (`setdefault`).  In
particular `{"type": "array", "prefixItems": [{"type": "string"},
{"type": "string"}]}` becomes `{"type": "array", "items": {"type":
"string"}, "minItems": 2, "maxItems": 2}`, and with a trailing
`items: {"type": "integer"}` the result is `items: {"anyOf": [{"type":
"integer"}, {"type": "string"}]}` with `minItems: 1` and no `maxItems`. -/
theorem claim_C6_amended :
    googleTransform [] (.obj [("type", .str "array"),
        ("prefixItems", .arr [.obj [("type", .str "string")], .obj [("type", .str "string")]])])
      = ([], .ok (.obj [("type", .str "array"), ("items", .obj [("type", .str "string")]),
                        ("minItems", .num 2), ("maxItems", .num 2)]))
    ∧ googleTransform [] (.obj [("type", .str "array"),
        ("prefixItems", .arr [.obj [("type", .str "string")]]),
        ("items", .obj [("type", .str "integer")])])
      = ([], .ok (.obj [("type", .str "array"),
                        ("items", .obj [("anyOf", .arr [.obj [("type", .str "integer")],
                                                        .obj [("type", .str "string")]])]),
                        ("minItems", .num 1)])) :=
  ⟨rfl, rfl⟩

/-- Claim C7, counterexample: on `{"type": "object", "additionalProperties":
false}` the Google transform *removes* the falsy `additionalProperties`
(the claim says a falsy value is left in place) and emits no warning. -/
theorem claim_C7_counterexample :
    googleTransform [] (.obj [("type", .str "object"), ("additionalProperties", .bool false)])
      = ([], .ok (.obj [("type", .str "object")])) :=
  rfl

set_option maxHeartbeats 4000000 in
/-- Claim C7 as amended: the Google transform drops a present
`additionalProperties` unconditionally, whatever its value; the caller-visible
warning (which shows the offending sub-schema with `additionalProperties`
re-attached) is emitted if and only if the removed value was truthy, and is
the transform's only side channel besides the returned schema. -/
theorem claim_C7_amended (v : JVal) :
    googleTransform [] (.obj [("type", .str "object"), ("additionalProperties", v)])
      = ((if jtruthy v then [[("type", .str "object"), ("additionalProperties", v)]] else []),
         .ok (.obj [("type", .str "object")])) :=
  rfl

/-- Claim C8, counterexample: on `{"type": "string", "format": "date"}` (no
description present) the Google transform produces the description
`"Format: date"`, not the `"(format: date)"` text the claim prescribes for a
created description. -/
theorem claim_C8_counterexample :
    googleTransform [] (.obj [("type", .str "string"), ("format", .str "date")])
      = ([], .ok (.obj [("type", .str "string"), ("description", .str "Format: date")]))
    ∧ "Format: date" ≠ "(format: date)" :=
  ⟨rfl, by decide⟩

/-- Claim C8 as amended: for a node with type string carrying a format, the
Google transform removes `format` and appends `" (format: <value>)"` to an
existing description; when the description is absent it instead creates one
reading `"Format: <value>"`. -/
theorem claim_C8_amended :
    googleTransform [] (.obj [("type", .str "string"), ("format", .str "date"),
        ("description", .str "a date")])
      = ([], .ok (.obj [("type", .str "string"), ("description", .str "a date (format: date)")]))
    ∧ googleTransform [] (.obj [("type", .str "string"), ("format", .str "date")])
      = ([], .ok (.obj [("type", .str "string"), ("description", .str "Format: date")])) :=
  ⟨rfl, rfl⟩

/-- Claim C9: evaluation of the code at the failing input.  The array node
`{"type": "array", "prefixItems": [{"type": "string", "enum": ["a", "b"]},
{"type": "integer"}]}` is well-formed JSON Schema, but its first positional
item's `_item_hashable` encoding `tuple(sorted(item.items()))` contains the
list `["a", "b"]`, so hashing it for the `seen` set raises `TypeError` —
`_item_hashable`'s identity fallback only guards non-dict items, not dict
items with unhashable values — and both the bare transform and the whole
Google walk of the document abort instead of completing. -/
theorem claim_C9 :
    googleTransform [] unhashableArraySchema = ([], .error .typeError)
    ∧ (googleWalk 8 none unhashableArraySchema).2 = .error .typeError :=
  ⟨rfl, rfl⟩

/-- Claim C10: under forced strict mode the OpenAI transform applied to
`{"type": "object"}` (no `properties` key) does not fail: it returns the
node with `additionalProperties: false`, `properties` set to the empty map
and `required` set to the empty list. -/
theorem claim_C10 :
    openaiTransform (some true) none true (.obj [("type", .str "object")])
      = (true, .obj [("type", .str "object"), ("additionalProperties", .bool false),
                     ("properties", .obj []), ("required", .arr [])]) :=
  rfl

end PydanticAI
